import Mathlib

/-!
Verification of the data-synchronization core of a Mikrotik router
polling controller (`custom_components/mikrotik_router/mikrotik_controller.py`).

The Python code is shallowly embedded: device records are association
lists from field names to dynamically typed values, tables are association
lists from keys to records, and fallible Python operations (dictionary
subscripts, division, bare-name evaluation) return `Except PyErr`.
-/

namespace Mikrotik

/-- Dynamically typed Python value as it appears in device records. -/
inductive PyVal where
  | none : PyVal
  | bool (b : Bool) : PyVal
  | int (n : Int) : PyVal
  | str (s : String) : PyVal
deriving DecidableEq, Repr

/-- Python exceptions the embedded code can raise. -/
inductive PyErr where
  | keyError (k : String) : PyErr
  | nameError (x : String) : PyErr
  | zeroDivisionError : PyErr
  | typeError : PyErr
deriving DecidableEq, Repr

/-- A raw or stored record: a Python dict from field name to value. -/
abbrev Record := List (String × PyVal)

/-- A keyed table: a Python dict from key value to record. -/
abbrev Table := List (PyVal × Record)

/-- The bridge MAC to IP side table built in `update_arp`. -/
abbrev Mac2Ip := List (PyVal × PyVal)

/-- Dict field read, `r[k]` when present: first binding of key `k`. -/
def rlookup : Record → String → Option PyVal
  | [], _ => Option.none
  | (k', v) :: rest, k => if k' = k then Option.some v else rlookup rest k

/-- Dict field write `r[k] = v`: replaces in place or appends, as a Python
dict keeps insertion position on update and appends new keys. -/
def rset : Record → String → PyVal → Record
  | [], k, v => [(k, v)]
  | (k', v') :: rest, k, v =>
    if k' = k then (k, v) :: rest else (k', v') :: rset rest k v

/-- Table entry read by key. -/
def tlookup : Table → PyVal → Option Record
  | [], _ => Option.none
  | (k', r) :: rest, k => if k' = k then Option.some r else tlookup rest k

/-- Table entry write by key, same dict semantics as `rset`. -/
def tset : Table → PyVal → Record → Table
  | [], k, r => [(k, r)]
  | (k', r') :: rest, k, r =>
    if k' = k then (k, r) :: rest else (k', r') :: tset rest k r

/-- Side-table read by MAC value. -/
def mlookup : Mac2Ip → PyVal → Option PyVal
  | [], _ => Option.none
  | (k', v) :: rest, k => if k' = k then Option.some v else mlookup rest k

/-- Side-table write by MAC value. -/
def mset : Mac2Ip → PyVal → PyVal → Mac2Ip
  | [], k, v => [(k, v)]
  | (k', v') :: rest, k, v =>
    if k' = k then (k, v) :: rest else (k', v') :: mset rest k v

/-- Fallible Python dict subscript `r[k]`: raises `KeyError` when absent. -/
def subscript (r : Record) (k : String) : Except PyErr PyVal :=
  match rlookup r k with
  | Option.some v => Except.ok v
  | Option.none => Except.error (PyErr.keyError k)

/-- Python truthiness of an embedded value. -/
def truthy : PyVal → Bool
  | PyVal.none => false
  | PyVal.bool b => b
  | PyVal.int n => decide (n ≠ 0)
  | PyVal.str s => decide (s ≠ "")

/-- Python `str()` of an embedded value. -/
def pyStr : PyVal → String
  | PyVal.none => "None"
  | PyVal.bool b => if b then "True" else "False"
  | PyVal.int n => toString n
  | PyVal.str s => s

/-- Python int coercion for arithmetic; non-numeric operands raise
`TypeError` as the corresponding Python expression would. -/
def asInt : PyVal → Except PyErr Int
  | PyVal.int n => Except.ok n
  | PyVal.bool b => Except.ok (if b then 1 else 0)
  | _ => Except.error PyErr.typeError

/-- Python true division of integers: exact rational result, raising
`ZeroDivisionError` on a zero divisor. -/
def pyDiv (a b : Int) : Except PyErr ℚ :=
  if b = 0 then Except.error PyErr.zeroDivisionError
  else Except.ok ((a : ℚ) / (b : ℚ))

/-- Python `round` on a rational: nearest integer, ties to even. -/
def pyRound (q : ℚ) : Int :=
  let f := ⌊q⌋
  let r := q - (f : ℚ)
  if r < (1 : ℚ) / 2 then f
  else if (1 : ℚ) / 2 < r then f + 1
  else if f % 2 = 0 then f else f + 1

/-- Modelled from the spec: `helper.from_entry` (Field Projector, spec
section 4.1) is not under src/; it returns the source field when present
and the given default otherwise (empty string when the caller gives none). -/
def from_entry (r : Record) (k : String) (d : PyVal) : PyVal :=
  (rlookup r k).getD d

/-- Modelled from the spec: boolean coercion of the Field Projector, which
treats only recognized truthy raw representations as true. -/
def coerceBool : PyVal → Bool
  | PyVal.bool b => b
  | PyVal.str s => decide (s = "true") || decide (s = "yes")
  | _ => false

/-- Modelled from the spec: `helper.from_entry_bool` is not under src/;
coerces the source field to bool, applies `reverse` after coercion, and
falls back to the default when the field is absent. -/
def from_entry_bool (r : Record) (k : String) (d : Bool) (rev : Bool) : Bool :=
  match rlookup r k with
  | Option.none => d
  | Option.some v => if rev then !(coerceBool v) else coerceBool v

/-- The in-memory state `self.data` of `MikrotikControllerData`: three
singleton records and four keyed tables, all created empty. -/
structure State where
  routerboard : Record
  resource : Record
  interface : Table
  arp : Table
  nat : Table
  fwupdate : Record
  script : Table
deriving DecidableEq, Repr

/-- The state as initialized by `__init__`: every table and record empty. -/
def emptyState : State :=
  { routerboard := [], resource := [], interface := [], arp := [],
    nat := [], fwupdate := [], script := [] }

/-! ### Lookup and update lemmas for the dict embeddings -/

theorem rlookup_rset_self (r : Record) (k : String) (v : PyVal) :
    rlookup (rset r k v) k = Option.some v := by
  induction r with
  | nil => simp [rset, rlookup]
  | cons p rest ih =>
    by_cases h : p.1 = k
    · simp [rset, rlookup, h]
    · simp [rset, rlookup, h, ih]

theorem rlookup_rset_ne (r : Record) (k k' : String) (v : PyVal)
    (h : k' ≠ k) : rlookup (rset r k v) k' = rlookup r k' := by
  have h2 : ¬(k = k') := fun hh => h hh.symm
  induction r with
  | nil => simp [rset, rlookup, h2]
  | cons p rest ih =>
    by_cases hp : p.1 = k
    · simp [rset, rlookup, hp, h2]
    · by_cases hp' : p.1 = k'
      · simp [rset, rlookup, hp, hp', h]
      · simp [rset, rlookup, hp, hp', ih]

theorem tlookup_tset_self (t : Table) (k : PyVal) (r : Record) :
    tlookup (tset t k r) k = Option.some r := by
  induction t with
  | nil => simp [tset, tlookup]
  | cons p rest ih =>
    by_cases h : p.1 = k
    · simp [tset, tlookup, h]
    · simp [tset, tlookup, h, ih]

theorem tlookup_tset_ne (t : Table) (k k' : PyVal) (r : Record)
    (h : k' ≠ k) : tlookup (tset t k r) k' = tlookup t k' := by
  have h2 : ¬(k = k') := fun hh => h hh.symm
  induction t with
  | nil => simp [tset, tlookup, h2]
  | cons p rest ih =>
    by_cases hp : p.1 = k
    · simp [tset, tlookup, hp, h2]
    · by_cases hp' : p.1 = k'
      · simp [tset, tlookup, hp, hp', h]
      · simp [tset, tlookup, hp, hp', ih]

/-! ### get_system_resource -/

/-- Body of the `for entry in data` loop of `get_system_resource`: copies
the five verbatim fields with default "unknown", then computes
`memory-usage` and `hdd-usage` as `round(((total - free) / total) * 100)`
whenever both counters are present, else stores "unknown". The division
is the bare Python `/` of the source, so a zero total raises. -/
def resourceEntry (acc : State) (entry : Record) : Except PyErr State := do
  let r0 := rset acc.resource "platform" (from_entry entry "platform" (PyVal.str "unknown"))
  let r1 := rset r0 "board-name" (from_entry entry "board-name" (PyVal.str "unknown"))
  let r2 := rset r1 "version" (from_entry entry "version" (PyVal.str "unknown"))
  let r3 := rset r2 "uptime" (from_entry entry "uptime" (PyVal.str "unknown"))
  let r4 := rset r3 "cpu-load" (from_entry entry "cpu-load" (PyVal.str "unknown"))
  let r5 ← match rlookup entry "free-memory", rlookup entry "total-memory" with
    | Option.some fv, Option.some tv => do
        let t ← asInt tv
        let f ← asInt fv
        let q ← pyDiv (t - f) t
        Except.ok (rset r4 "memory-usage" (PyVal.int (pyRound (q * 100))))
    | _, _ => Except.ok (rset r4 "memory-usage" (PyVal.str "unknown"))
  let r6 ← match rlookup entry "free-hdd-space", rlookup entry "total-hdd-space" with
    | Option.some fv, Option.some tv => do
        let t ← asInt tv
        let f ← asInt fv
        let q ← pyDiv (t - f) t
        Except.ok (rset r5 "hdd-usage" (PyVal.int (pyRound (q * 100))))
    | _, _ => Except.ok (rset r5 "hdd-usage" (PyVal.str "unknown"))
  Except.ok { acc with resource := r6 }

/-- `get_system_resource`: early return on an empty fetch result, else the
per-entry loop over the fetched records. -/
def get_system_resource (st : State) (data : List Record) : Except PyErr State :=
  if data.isEmpty then Except.ok st
  else data.foldlM resourceEntry st

/-- Reads a resource field out of the result of a refresh, `Option.none`
when the refresh raised. -/
def resourceField (res : Except PyErr State) (k : String) : Option PyVal :=
  match res with
  | Except.ok s => rlookup s.resource k
  | Except.error _ => Option.none

/-! ### get_firmware_update -/

/-- Body of the `for entry in data` loop of `get_firmware_update`: when a
status field is present, `available` is recomputed as the literal string
comparison; when absent, `available` is defaulted to false only if no
prior `available` state exists; the three version fields are then copied
with default "unknown". -/
def fwEntry (acc : State) (entry : Record) : State :=
  let fw0 :=
    match rlookup entry "status" with
    | Option.some v =>
        rset acc.fwupdate "available"
          (PyVal.bool (decide (v = PyVal.str "New version is available")))
    | Option.none =>
        if (rlookup acc.fwupdate "available").isSome then acc.fwupdate
        else rset acc.fwupdate "available" (PyVal.bool false)
  let fw1 := rset fw0 "channel" (from_entry entry "channel" (PyVal.str "unknown"))
  let fw2 := rset fw1 "installed-version" (from_entry entry "installed-version" (PyVal.str "unknown"))
  let fw3 := rset fw2 "latest-version" (from_entry entry "latest-version" (PyVal.str "unknown"))
  { acc with fwupdate := fw3 }

/-- `get_firmware_update`: early return on an empty fetch, else the
per-entry loop. Never raises. -/
def get_firmware_update (st : State) (data : List Record) : Except PyErr State :=
  if data.isEmpty then Except.ok st
  else Except.ok (data.foldl fwEntry st)

/-- Reads the `available` field of the fw-update record out of a refresh
result, `Option.none` when the refresh raised. -/
def fwAvail (res : Except PyErr State) : Option PyVal :=
  match res with
  | Except.ok s => rlookup s.fwupdate "available"
  | Except.error _ => Option.none

/-! ### get_system_routerboard -/

/-- Body of the `for entry in data` loop of `get_system_routerboard`. -/
def routerboardEntry (acc : State) (entry : Record) : State :=
  let r0 := rset acc.routerboard "routerboard"
    (PyVal.bool (from_entry_bool entry "routerboard" false false))
  let r1 := rset r0 "model" (from_entry entry "model" (PyVal.str "unknown"))
  let r2 := rset r1 "serial-number" (from_entry entry "serial-number" (PyVal.str "unknown"))
  let r3 := rset r2 "firmware" (from_entry entry "current-firmware" (PyVal.str "unknown"))
  { acc with routerboard := r3 }

/-- `get_system_routerboard`: early return on an empty fetch, else the
per-entry loop. Never raises. -/
def get_system_routerboard (st : State) (data : List Record) : Except PyErr State :=
  if data.isEmpty then Except.ok st
  else Except.ok (data.foldl routerboardEntry st)

/-! ### get_script -/

/-- Body of the `for entry in data` loop of `get_script`: records without
a `name` field are skipped, records with a falsy name are logged and
skipped, every other record is stored under its name. -/
def scriptEntry (acc : State) (entry : Record) : State :=
  match rlookup entry "name" with
  | Option.none => acc
  | Option.some nv =>
    if truthy nv = false then acc
    else
      let uid := nv
      let s1 := if (tlookup acc.script uid).isSome then acc.script
                else tset acc.script uid []
      let r0 := (tlookup s1 uid).getD []
      let r1 := rset r0 "name" (from_entry entry "name" (PyVal.str ""))
      let r2 := rset r1 "last-started" (from_entry entry "last-started" (PyVal.str "unknown"))
      let r3 := rset r2 "run-count" (from_entry entry "run-count" (PyVal.str "unknown"))
      { acc with script := tset s1 uid r3 }

/-- `get_script`: early return on an empty fetch, else the per-entry
loop. Never raises. -/
def get_script (st : State) (data : List Record) : Except PyErr State :=
  if data.isEmpty then Except.ok st
  else Except.ok (data.foldl scriptEntry st)

/-! ### get_nat -/

/-- Body of the `for entry in data` loop of `get_nat`: bare subscripts of
`action`, `.id`, `protocol` and `dst-port` exactly where the source
subscripts them; records whose action is not `dst-nat` are skipped; all
remaining fields are projected with `from_entry` defaults. -/
def natEntry (acc : State) (entry : Record) : Except PyErr State := do
  let act ← subscript entry "action"
  if act ≠ PyVal.str "dst-nat" then Except.ok acc else do
  let uid ← subscript entry ".id"
  let nat1 := if (tlookup acc.nat uid).isSome then acc.nat
              else tset acc.nat uid []
  let r0 := (tlookup nat1 uid).getD []
  let proto ← subscript entry "protocol"
  let dport ← subscript entry "dst-port"
  let r1 := rset r0 "name" (PyVal.str (pyStr proto ++ ":" ++ pyStr dport))
  let r2 := rset r1 ".id" (from_entry entry ".id" (PyVal.str ""))
  let r3 := rset r2 "protocol" (from_entry entry "protocol" (PyVal.str ""))
  let r4 := rset r3 "dst-port" (from_entry entry "dst-port" (PyVal.str ""))
  let r5 := rset r4 "in-interface" (from_entry entry "in-interface" (PyVal.str "any"))
  let r6 := rset r5 "to-addresses" (from_entry entry "to-addresses" (PyVal.str ""))
  let r7 := rset r6 "to-ports" (from_entry entry "to-ports" (PyVal.str ""))
  let r8 := rset r7 "comment" (from_entry entry "comment" (PyVal.str ""))
  let r9 := rset r8 "enabled" (PyVal.bool (from_entry_bool entry "disabled" true true))
  Except.ok { acc with nat := tset nat1 uid r9 }

/-- `get_nat`: early return on an empty fetch, else the per-entry loop. -/
def get_nat (st : State) (data : List Record) : Except PyErr State :=
  if data.isEmpty then Except.ok st
  else data.foldlM natEntry st

/-! ### get_iface_from_entry -/

/-- The loop of `get_iface_from_entry`: scans the interface table in
insertion order; the subscripts of `name`, of the raw `interface` field
and of `default-name` are the bare dict subscripts of the source,
evaluated per iteration; returns the first matching default-name, or the
Python `None` the initial `uid = None` leaves behind. -/
def ifaceScan (entry : Record) : Table → Except PyErr PyVal
  | [] => Except.ok PyVal.none
  | (_, rec) :: rest => do
    let nm ← subscript rec "name"
    let iname ← subscript entry "interface"
    if nm = iname then subscript rec "default-name"
    else ifaceScan entry rest

/-- `get_iface_from_entry`: resolves an interface default-name from the
custom name referenced by a raw entry. -/
def get_iface_from_entry (st : State) (entry : Record) : Except PyErr PyVal :=
  ifaceScan entry st.interface

/-! ### update_arp -/

/-- The ARP-table write block at the bottom of the `update_arp` loop
body: ensures the uid has a record, writes the interface field, then
writes `mac-address` and `address`, each collapsing to the sentinel
"multiple" when the field was already present in the record at the time
of its write. -/
def arpWrite (st : State) (uid : PyVal) (entry : Record) : State :=
  let arp1 := if (tlookup st.arp uid).isSome then st.arp
              else tset st.arp uid []
  let r0 := (tlookup arp1 uid).getD []
  let r1 := rset r0 "interface" uid
  let r2 := rset r1 "mac-address"
    (if (rlookup r1 "mac-address").isSome then PyVal.str "multiple"
     else from_entry entry "mac-address" (PyVal.str ""))
  let r3 := rset r2 "address"
    (if (rlookup r2 "address").isSome then PyVal.str "multiple"
     else from_entry entry "address" (PyVal.str ""))
  { st with arp := tset arp1 uid r3 }

/-- Body of the `for entry in data` loop of `update_arp`: entries with a
truthy `invalid` flag are skipped; entries on the bridge set the
bridge-used flag and feed the MAC to IP side table; remaining entries are
resolved to an interface uid (falsy uid skipped) and written into the ARP
table via `arpWrite`. -/
def arpEntry (acc : State × Mac2Ip × Bool) (entry : Record) :
    Except PyErr (State × Mac2Ip × Bool) := do
  let st := acc.1
  let m := acc.2.1
  let b := acc.2.2
  let inv ← subscript entry "invalid"
  if truthy inv then Except.ok (st, m, b) else do
  let iface ← subscript entry "interface"
  if iface = PyVal.str "bridge" then
    let m' := match rlookup entry "mac-address", rlookup entry "address" with
      | Option.some mv, Option.some av => mset m mv av
      | _, _ => m
    Except.ok (st, m', true)
  else do
    let uid ← get_iface_from_entry st entry
    if truthy uid = false then Except.ok (st, m, b) else
    Except.ok (arpWrite st uid entry, m, b)

/-- `update_arp`: early return of the unchanged accumulators on an empty
fetch, else the per-entry loop threading state, side table and flag. -/
def update_arp (st : State) (m : Mac2Ip) (b : Bool) (data : List Record) :
    Except PyErr (State × Mac2Ip × Bool) :=
  if data.isEmpty then Except.ok (st, m, b)
  else data.foldlM arpEntry (st, m, b)

/-! ### update_bridge_hosts -/

/-- The ARP-table write block at the bottom of the `update_bridge_hosts`
loop body: ensures the uid has a record and writes the interface field; a
uid whose record already has a MAC collapses both fields to "multiple";
otherwise the MAC of the entry is assigned and its IP looked up in the
MAC to IP side table, empty string when absent. -/
def bridgeWrite (m : Mac2Ip) (st : State) (uid : PyVal) (entry : Record) : State :=
  let arp1 := if (tlookup st.arp uid).isSome then st.arp
              else tset st.arp uid []
  let r0 := (tlookup arp1 uid).getD []
  let r1 := rset r0 "interface" uid
  let r2 :=
    if (rlookup r1 "mac-address").isSome then
      rset (rset r1 "mac-address" (PyVal.str "multiple")) "address" (PyVal.str "multiple")
    else
      let mval := from_entry entry "mac-address" (PyVal.str "")
      let r' := rset r1 "mac-address" mval
      rset r' "address" ((mlookup m mval).getD (PyVal.str ""))
  { st with arp := tset arp1 uid r2 }

/-- Body of the `for entry in data` loop of `update_bridge_hosts`:
entries with a truthy `local` flag are skipped; the interface uid is
resolved as in `update_arp` (falsy uid skipped); remaining entries are
written into the ARP table via `bridgeWrite`. -/
def bridgeEntry (m : Mac2Ip) (acc : State) (entry : Record) :
    Except PyErr State := do
  let loc ← subscript entry "local"
  if truthy loc then Except.ok acc else do
  let uid ← get_iface_from_entry acc entry
  if truthy uid = false then Except.ok acc else
  Except.ok (bridgeWrite m acc uid entry)

/-- `update_bridge_hosts`: early return on an empty fetch, else the
per-entry loop. -/
def update_bridge_hosts (st : State) (m : Mac2Ip) (data : List Record) :
    Except PyErr State :=
  if data.isEmpty then Except.ok st
  else data.foldlM (bridgeEntry m) st

/-! ### get_interface_client -/

/-- The disable loop of `get_interface_client`: force-sets the two client
fields of every interface record to the sentinel "disabled". -/
def disableClients (t : Table) : Table :=
  t.map (fun p =>
    (p.1, rset (rset p.2 "client-ip-address" (PyVal.str "disabled"))
      "client-mac-address" (PyVal.str "disabled")))

/-- The final mapping loop of `get_interface_client`: interfaces with an
ARP entry receive its address and mac-address via `from_entry`; others
are left untouched. -/
def mapClients (arp : Table) (t : Table) : Table :=
  t.map (fun p =>
    match tlookup arp p.1 with
    | Option.none => p
    | Option.some a =>
        (p.1, rset (rset p.2 "client-ip-address" (from_entry a "address" (PyVal.str "")))
          "client-mac-address" (from_entry a "mac-address" (PyVal.str ""))))

/-- `get_interface_client`: resets the ARP table to empty first; when
client tracking is disabled, force-sets the client fields and returns
False without fetching; otherwise runs `update_arp` on the ARP fetch,
`update_bridge_hosts` on the bridge fetch when the bridge was used, and
maps the ARP table onto the interfaces. Besides the Python return value,
the embedding returns the list of endpoints fetched during the call. -/
def get_interface_client (track : Bool) (st : State)
    (arp_data bridge_data : List Record) :
    Except PyErr (State × Bool × List String) :=
  let st0 := { st with arp := [] }
  if track = false then
    Except.ok ({ st0 with interface := disableClients st0.interface }, false, [])
  else do
    let res ← update_arp st0 [] false arp_data
    let st1 := res.1
    let m := res.2.1
    let b := res.2.2
    let st2 ← if b then update_bridge_hosts st1 m bridge_data else Except.ok st1
    Except.ok ({ st2 with interface := mapClients st2.arp st2.interface }, true,
      "/ip/arp" :: (if b then ["/interface/bridge/host"] else []))

/-! ### Table Merger (helper.from_list), modelled from the spec -/

/-- Modelled from the spec: one field specification of the Field
Projector (spec section 4.1) as passed by the controller to
`helper.from_list`, which is not under src/: target name, optional source
name, optional bool coercion, reverse flag, optional default value, and
optional copy-from-another-field fallback. -/
structure Vspec where
  name : String
  source : Option String
  isBool : Bool
  reverse : Bool
  dflt : Option PyVal
  dfltVal : Option String
deriving Repr

/-- Field spec with only a target name. -/
def vplain (n : String) : Vspec :=
  ⟨n, Option.none, false, false, Option.none, Option.none⟩

/-- Field spec with a default value. -/
def vdefault (n : String) (d : PyVal) : Vspec :=
  ⟨n, Option.none, false, false, Option.some d, Option.none⟩

/-- Field spec copying another projected field when the source is absent. -/
def vdefaultVal (n other : String) : Vspec :=
  ⟨n, Option.none, false, false, Option.none, Option.some other⟩

/-- Field spec with bool coercion. -/
def vbool (n : String) : Vspec :=
  ⟨n, Option.none, true, false, Option.none, Option.none⟩

/-- Field spec with a distinct source field. -/
def vsrc (n s : String) : Vspec :=
  ⟨n, Option.some s, false, false, Option.none, Option.none⟩

/-- Field spec with a distinct source, bool coercion and reverse. -/
def vboolRev (n s : String) : Vspec :=
  ⟨n, Option.some s, true, true, Option.none, Option.none⟩

/-- Modelled from the spec: the Field Projector applied to one spec entry
(spec section 4.1): extracts the source field, coerces and reverses
booleans, else falls back to another projected field or the default, and
omits the target when nothing applies. -/
def projectField (raw : Record) (acc : Record) (v : Vspec) : Record :=
  match rlookup raw (v.source.getD v.name) with
  | Option.some x =>
      let x' := if v.isBool then
          PyVal.bool (if v.reverse then !(coerceBool x) else coerceBool x)
        else x
      rset acc v.name x'
  | Option.none =>
      match v.dfltVal with
      | Option.some other =>
          match rlookup acc other with
          | Option.some y => rset acc v.name y
          | Option.none => acc
      | Option.none =>
          match v.dflt with
          | Option.some d => rset acc v.name d
          | Option.none => acc

/-- Modelled from the spec: ensure-spec application at record creation
(spec section 4.2): each ensure field is initialized to its default,
empty string when the spec names no default. -/
def ensureField (acc : Record) (v : Vspec) : Record :=
  rset acc v.name (v.dflt.getD (PyVal.str ""))

/-- Key resolution mode of the Table Merger: direct key field, or search
of the existing table by the value of a nominated field. -/
inductive KeyMode where
  | byField (k : String) : KeyMode
  | bySearch (k : String) : KeyMode

/-- Search of the existing table for the entry whose nominated field has
the given value, in insertion order. -/
def findKeyBySearch : Table → String → PyVal → Option PyVal
  | [], _, _ => Option.none
  | (key, rec) :: rest, k, v =>
    if rlookup rec k = Option.some v then Option.some key
    else findKeyBySearch rest k v

/-- Modelled from the spec: key resolution of the Table Merger (spec
section 4.2), in its two modes; a raw record whose key cannot be resolved
is treated as malformed and skipped by the caller. -/
def resolveKey (data : Table) (mode : KeyMode) (raw : Record) : Option PyVal :=
  match mode with
  | KeyMode.byField k => rlookup raw k
  | KeyMode.bySearch k =>
      match rlookup raw k with
      | Option.none => Option.none
      | Option.some v => findKeyBySearch data k v

/-- Modelled from the spec: `helper.from_list`, the Table Merger (spec
section 4.2), is not under src/: for each raw record, resolve the key;
on a new key create an empty record and apply the ensure defaults, then
apply the main projection; on an existing key apply only the projection;
unresolved records are skipped; existing entries never deleted. -/
def from_list (data : Table) (source : List Record) (mode : KeyMode)
    (vals ensure : List Vspec) : Table :=
  source.foldl (fun acc raw =>
    match resolveKey acc mode raw with
    | Option.none => acc
    | Option.some key =>
        let base := match tlookup acc key with
          | Option.some r => r
          | Option.none => ensure.foldl ensureField []
        tset acc key (vals.foldl (projectField raw) base)) data

/-! ### get_interface and get_interface_traffic -/

/-- The field specs the controller passes to `from_list` for the
interface fetch. -/
def interfaceVals : List Vspec :=
  [vplain "default-name",
   vdefaultVal "name" "default-name",
   vdefault "type" (PyVal.str "unknown"),
   vbool "running",
   vboolRev "enabled" "disabled",
   vsrc "port-mac-address" "mac-address",
   vplain "comment",
   vplain "last-link-down-time",
   vplain "last-link-up-time",
   vplain "link-downs",
   vplain "tx-queue-drop",
   vplain "actual-mtu"]

/-- The ensure specs the controller passes to `from_list` for the
interface fetch. -/
def interfaceEnsure : List Vspec :=
  [vplain "client-ip-address",
   vplain "client-mac-address",
   vdefault "rx-bits-per-second" (PyVal.int 0),
   vdefault "tx-bits-per-second" (PyVal.int 0)]

/-- The field specs the controller passes to `from_list` for the traffic
fetch, keyed by search on the current interface name. -/
def trafficVals : List Vspec :=
  [vdefault "rx-bits-per-second" (PyVal.int 0),
   vdefault "tx-bits-per-second" (PyVal.int 0)]

/-- The name-joining loop at the top of `get_interface_traffic`: builds
the comma-joined list of current interface names handed to the traffic
endpoint, subscripting each record at `name`. -/
def joinNames (t : Table) : Except PyErr String :=
  t.foldlM (fun s p => do
    let nm ← subscript p.2 "name"
    Except.ok (if s = "" then pyStr nm else s ++ "," ++ pyStr nm)) ""

/-- `get_interface_traffic`: its `interface_list` parameter is
immediately rebound to the joined name string, so the embedding takes
only the traffic fetch result; merges the two traffic counters onto the
interface table by name search. -/
def get_interface_traffic (st : State) (traffic_data : List Record) :
    Except PyErr State := do
  let _names ← joinNames st.interface
  Except.ok { st with
    interface := from_list st.interface traffic_data (KeyMode.bySearch "name")
      trafficVals [] }

/-- Evaluation of a bare Python name against a scope of bound names:
`NameError` when the name is not bound. -/
def resolveName (scope : List (String × PyVal)) (x : String) :
    Except PyErr PyVal :=
  match rlookup scope x with
  | Option.some v => Except.ok v
  | Option.none => Except.error (PyErr.nameError x)

/-- The names bound in the body of `get_interface` when the call
`self.get_interface_traffic(interface_list)` is evaluated: the method
binds no local variable at all, and no module-level global of
`mikrotik_controller.py` is named `interface_list` either, so only
`self` is in scope. -/
def getInterfaceScope : List (String × PyVal) := [("self", PyVal.none)]

/-- `get_interface`: merges the interface fetch into the interface table
via `from_list`, then evaluates the argument expression `interface_list`
of the traffic call in its scope before the call can happen. -/
def get_interface (st : State) (src traffic_data : List Record) :
    Except PyErr State := do
  let st1 := { st with
    interface := from_list st.interface src (KeyMode.byField "default-name")
      interfaceVals interfaceEnsure }
  let _arg ← resolveName getInterfaceScope "interface_list"
  get_interface_traffic st1 traffic_data

/-! ## Theorems -/

/-- C1: `get_system_resource` computes `memory-usage` as
`round(100 * (total-memory - free-memory) / total-memory)` when both
counters are present (1000 and 250 give 75), but on a record with
`total-memory = 0` the claimed "unknown" result is not produced: the
source divides by the raw total with no guard, so the call raises
`ZeroDivisionError`; the same holds for `hdd-usage` with
`total-hdd-space = 0`. -/
theorem c1_zero_total_divides_by_zero :
    resourceField (get_system_resource emptyState
      [[("total-memory", PyVal.int 1000), ("free-memory", PyVal.int 250)]])
      "memory-usage" = Option.some (PyVal.int 75)
    ∧ get_system_resource emptyState
      [[("total-memory", PyVal.int 0), ("free-memory", PyVal.int 0)]]
      = Except.error PyErr.zeroDivisionError
    ∧ get_system_resource emptyState
      [[("total-memory", PyVal.int 1000), ("free-memory", PyVal.int 250),
        ("total-hdd-space", PyVal.int 0), ("free-hdd-space", PyVal.int 0)]]
      = Except.error PyErr.zeroDivisionError := by
  refine ⟨?_, ?_, ?_⟩
  · simp [resourceField, get_system_resource, resourceEntry, subscript, rlookup, asInt,
      pyDiv, from_entry, rset, Bind.bind, Except.bind, pure, Except.pure]
    norm_num [pyRound]
  · simp [get_system_resource, resourceEntry, subscript, rlookup, asInt, pyDiv,
      Bind.bind, Except.bind]
  · simp [get_system_resource, resourceEntry, subscript, rlookup, asInt, pyDiv,
      from_entry, rset, Bind.bind, Except.bind]

/-- C2: for every state and every non-empty interface fetch, evaluating
`get_interface` fails with a name-resolution error on the undefined
variable `interface_list` at the `get_interface_traffic` call site, so
the per-interface traffic merge is never reached through
`get_interface`. -/
theorem c2_get_interface_name_error (st : State) (src traffic_data : List Record)
    (_hne : src ≠ []) :
    get_interface st src traffic_data
      = Except.error (PyErr.nameError "interface_list") := by
  simp [get_interface, resolveName, getInterfaceScope, rlookup, Bind.bind, Except.bind]

/-- Witness for C2 at a concrete one-record fetch. -/
theorem c2_get_interface_name_error_witness :
    ([[("default-name", PyVal.str "ether1")]] : List Record) ≠ [] ∧
    get_interface emptyState [[("default-name", PyVal.str "ether1")]] []
      = Except.error (PyErr.nameError "interface_list") :=
  ⟨by simp, c2_get_interface_name_error emptyState _ [] (by simp)⟩

/-- C3 counterexample: contrary to the claim that a record missing a
required field is skipped without raising, `get_nat` on a batch holding
one record with no `action` field raises `KeyError` to the caller. -/
theorem c3_counterexample_get_nat_raises :
    get_nat emptyState [[]] = Except.error (PyErr.keyError "action") := by
  simp [get_nat, natEntry, subscript, rlookup, Bind.bind, Except.bind]

/-- C3 amended: `get_nat` raises `KeyError` on a record missing `action`,
and, for a `dst-nat` record, on a missing `.id`, `protocol` or
`dst-port`; `update_arp` raises `KeyError` on a record missing `invalid`
or (for a valid entry) `interface`; such records are not skipped and the
error propagates to the caller. -/
theorem c3_missing_required_field_raises (st : State) (m : Mac2Ip) (b : Bool)
    (e : Record) :
    (rlookup e "action" = Option.none →
      get_nat st [e] = Except.error (PyErr.keyError "action"))
    ∧ (rlookup e "action" = Option.some (PyVal.str "dst-nat") →
        rlookup e ".id" = Option.none →
        get_nat st [e] = Except.error (PyErr.keyError ".id"))
    ∧ (∀ u, rlookup e "action" = Option.some (PyVal.str "dst-nat") →
        rlookup e ".id" = Option.some u →
        rlookup e "protocol" = Option.none →
        get_nat st [e] = Except.error (PyErr.keyError "protocol"))
    ∧ (∀ u p, rlookup e "action" = Option.some (PyVal.str "dst-nat") →
        rlookup e ".id" = Option.some u →
        rlookup e "protocol" = Option.some p →
        rlookup e "dst-port" = Option.none →
        get_nat st [e] = Except.error (PyErr.keyError "dst-port"))
    ∧ (rlookup e "invalid" = Option.none →
        update_arp st m b [e] = Except.error (PyErr.keyError "invalid"))
    ∧ (∀ v, rlookup e "invalid" = Option.some v → truthy v = false →
        rlookup e "interface" = Option.none →
        update_arp st m b [e] = Except.error (PyErr.keyError "interface")) := by
  refine ⟨?_, ?_, ?_, ?_, ?_, ?_⟩
  · intro h
    simp [get_nat, natEntry, subscript, h, Bind.bind, Except.bind]
  · intro h1 h2
    simp [get_nat, natEntry, subscript, h1, h2, Bind.bind, Except.bind]
  · intro u h1 h2 h3
    simp [get_nat, natEntry, subscript, h1, h2, h3, Bind.bind, Except.bind]
  · intro u p h1 h2 h3 h4
    simp [get_nat, natEntry, subscript, h1, h2, h3, h4, Bind.bind, Except.bind]
  · intro h
    simp [update_arp, arpEntry, subscript, h, Bind.bind, Except.bind]
  · intro v h1 h2 h3
    simp [update_arp, arpEntry, subscript, h1, h2, h3, Bind.bind, Except.bind]

/-- Witness for the amended C3 at concrete malformed records. -/
theorem c3_missing_required_field_raises_witness :
    get_nat emptyState [[("dst-port", PyVal.int 80)]]
      = Except.error (PyErr.keyError "action")
    ∧ get_nat emptyState [[("action", PyVal.str "dst-nat")]]
      = Except.error (PyErr.keyError ".id")
    ∧ update_arp emptyState [] false [[("interface", PyVal.str "ether1")]]
      = Except.error (PyErr.keyError "invalid")
    ∧ update_arp emptyState [] false [[("invalid", PyVal.bool false)]]
      = Except.error (PyErr.keyError "interface") := by
  refine ⟨?_, ?_, ?_, ?_⟩
  · exact (c3_missing_required_field_raises emptyState [] false _).1 rfl
  · exact (c3_missing_required_field_raises emptyState [] false _).2.1 rfl rfl
  · exact (c3_missing_required_field_raises emptyState [] false _).2.2.2.2.1 rfl
  · exact (c3_missing_required_field_raises emptyState [] false _).2.2.2.2.2
      (PyVal.bool false) rfl rfl rfl

/-- C9: for every table-refresh operation, an empty fetch result is a
no-op: no error is raised and the state (and, for `update_arp`, the side
table and bridge flag) is returned exactly as it was. -/
theorem c9_empty_fetch_is_noop (st : State) (m : Mac2Ip) (b : Bool) :
    get_nat st [] = Except.ok st
    ∧ get_system_resource st [] = Except.ok st
    ∧ get_system_routerboard st [] = Except.ok st
    ∧ get_firmware_update st [] = Except.ok st
    ∧ get_script st [] = Except.ok st
    ∧ update_arp st m b [] = Except.ok (st, m, b)
    ∧ update_bridge_hosts st m [] = Except.ok st :=
  ⟨rfl, rfl, rfl, rfl, rfl, rfl, rfl⟩

/-- A refresh over a one-record batch runs the loop body once. -/
theorem get_firmware_update_singleton (st : State) (entry : Record) :
    get_firmware_update st [entry] = Except.ok (fwEntry st entry) := rfl

/-- The `available` field left by one firmware loop iteration: recomputed
from a present status field, kept when absent and already set, defaulted
to false when absent and never set. -/
theorem fwEntry_available (acc : State) (entry : Record) :
    rlookup (fwEntry acc entry).fwupdate "available" =
      match rlookup entry "status" with
      | Option.some v =>
          Option.some (PyVal.bool (decide (v = PyVal.str "New version is available")))
      | Option.none =>
          if (rlookup acc.fwupdate "available").isSome
          then rlookup acc.fwupdate "available"
          else Option.some (PyVal.bool false) := by
  unfold fwEntry
  cases h : rlookup entry "status" with
  | none =>
    cases hs : (rlookup acc.fwupdate "available").isSome with
    | false =>
      simp only [h, hs, if_false]
      rw [rlookup_rset_ne _ _ _ _ (by decide), rlookup_rset_ne _ _ _ _ (by decide),
        rlookup_rset_ne _ _ _ _ (by decide)]
      simp [hs, rlookup_rset_self]
    | true =>
      simp only [h, hs, if_true]
      rw [rlookup_rset_ne _ _ _ _ (by decide), rlookup_rset_ne _ _ _ _ (by decide),
        rlookup_rset_ne _ _ _ _ (by decide)]
  | some v =>
    simp only [h]
    rw [rlookup_rset_ne _ _ _ _ (by decide), rlookup_rset_ne _ _ _ _ (by decide),
      rlookup_rset_ne _ _ _ _ (by decide)]
    simp [rlookup_rset_self]

/-- C4: firmware availability is sticky: when the fetched record omits
`status` and `available` is already true, it stays true; when `status` is
present, `available` is exactly the literal comparison with "New version
is available"; when `status` is absent and no prior `available` state
exists, it defaults to false. -/
theorem c4_firmware_available_sticky (st : State) (entry : Record) :
    (rlookup entry "status" = Option.none →
      rlookup st.fwupdate "available" = Option.some (PyVal.bool true) →
      fwAvail (get_firmware_update st [entry]) = Option.some (PyVal.bool true))
    ∧ (∀ v, rlookup entry "status" = Option.some v →
        fwAvail (get_firmware_update st [entry])
          = Option.some (PyVal.bool (decide (v = PyVal.str "New version is available"))))
    ∧ (rlookup entry "status" = Option.none →
        rlookup st.fwupdate "available" = Option.none →
        fwAvail (get_firmware_update st [entry]) = Option.some (PyVal.bool false)) := by
  refine ⟨?_, ?_, ?_⟩
  · intro h1 h2
    rw [get_firmware_update_singleton]
    show rlookup (fwEntry st entry).fwupdate "available" = _
    rw [fwEntry_available, h1]
    simp [h2]
  · intro v hv
    rw [get_firmware_update_singleton]
    show rlookup (fwEntry st entry).fwupdate "available" = _
    rw [fwEntry_available, hv]
  · intro h1 h2
    rw [get_firmware_update_singleton]
    show rlookup (fwEntry st entry).fwupdate "available" = _
    rw [fwEntry_available, h1]
    simp [h2]

/-- Witness for C4: the sticky case, the literal-match case and the
first-ever default case at concrete inputs. -/
theorem c4_firmware_available_sticky_witness :
    fwAvail (get_firmware_update
      { emptyState with fwupdate := [("available", PyVal.bool true)] } [[]])
      = Option.some (PyVal.bool true)
    ∧ fwAvail (get_firmware_update emptyState
        [[("status", PyVal.str "New version is available")]])
      = Option.some (PyVal.bool true)
    ∧ fwAvail (get_firmware_update emptyState [[("status", PyVal.str "System is already up to date")]])
      = Option.some (PyVal.bool false)
    ∧ fwAvail (get_firmware_update emptyState [[]]) = Option.some (PyVal.bool false) := by
  refine ⟨?_, ?_, ?_, ?_⟩
  · exact (c4_firmware_available_sticky _ _).1 rfl rfl
  · have := (c4_firmware_available_sticky emptyState
      [("status", PyVal.str "New version is available")]).2.1
      (PyVal.str "New version is available") rfl
    simpa using this
  · have := (c4_firmware_available_sticky emptyState
      [("status", PyVal.str "System is already up to date")]).2.1
      (PyVal.str "System is already up to date") rfl
    simpa using this
  · exact (c4_firmware_available_sticky _ _).2.2 rfl rfl

/-- One script loop iteration never creates a table key that is falsy
(empty name) or was absent before unless the record carries a truthy
name. -/
theorem scriptEntry_preserves_absent (st : State) (e : Record) (k : PyVal)
    (h0 : tlookup st.script k = Option.none) (hk : truthy k = false) :
    tlookup (scriptEntry st e).script k = Option.none := by
  unfold scriptEntry
  cases hn : rlookup e "name" with
  | none => exact h0
  | some nv =>
    cases ht : truthy nv with
    | false => simp [ht]; exact h0
    | true =>
      have hne : k ≠ nv := by
        intro hh
        rw [hh, ht] at hk
        exact absurd hk (by decide)
      simp only [ht]
      simp only [Bool.true_eq_false, if_false]
      rw [tlookup_tset_ne _ _ _ _ hne]
      by_cases hs : (tlookup st.script nv).isSome
      · simp only [hs, if_true]
        exact h0
      · rw [if_neg hs, tlookup_tset_ne _ _ _ _ hne]
        exact h0

/-- `get_script` always succeeds with the fold of its loop body. -/
theorem get_script_foldl (st : State) (data : List Record) :
    get_script st data = Except.ok (data.foldl scriptEntry st) := by
  cases data with
  | nil => rfl
  | cons a l => rfl

/-- C8: `get_script` never raises and never stores a script under an
empty (or otherwise falsy) name: any falsy key absent from the script
table before the refresh is still absent after it, so every key created
by the refresh is a truthy, non-empty name. -/
theorem c8_script_empty_name_never_stored (st : State) (data : List Record) :
    ∃ st', get_script st data = Except.ok st' ∧
      ∀ k, tlookup st.script k = Option.none → truthy k = false →
        tlookup st'.script k = Option.none := by
  refine ⟨data.foldl scriptEntry st, get_script_foldl st data, ?_⟩
  intro k
  induction data generalizing st with
  | nil => intro h0 _; exact h0
  | cons e l ih =>
    intro h0 hk
    exact ih (scriptEntry st e) (scriptEntry_preserves_absent st e k h0 hk) hk

/-- Witness for C8: a batch with an empty-named record and a good one
leaves no entry under the empty name. -/
theorem c8_script_empty_name_never_stored_witness :
    ∃ st', get_script emptyState
        [[("name", PyVal.str "")], [("name", PyVal.str "backup")]] = Except.ok st'
      ∧ tlookup st'.script (PyVal.str "") = Option.none := by
  obtain ⟨st', heq, hp⟩ := c8_script_empty_name_never_stored emptyState
    [[("name", PyVal.str "")], [("name", PyVal.str "backup")]]
  exact ⟨st', heq, hp (PyVal.str "") rfl (by decide)⟩

/-- C6: with client tracking disabled, `get_interface_client` returns
False having fetched nothing, and every interface record has both client
fields force-set to the literal sentinel "disabled". -/
theorem c6_disabled_tracking_sets_sentinel (st : State)
    (arp_data bridge_data : List Record) :
    ∃ st', get_interface_client false st arp_data bridge_data
        = Except.ok (st', false, []) ∧
      ∀ p ∈ st'.interface,
        rlookup p.2 "client-ip-address" = Option.some (PyVal.str "disabled") ∧
        rlookup p.2 "client-mac-address" = Option.some (PyVal.str "disabled") := by
  refine ⟨_, rfl, ?_⟩
  intro p hp
  simp only [disableClients, List.mem_map] at hp
  obtain ⟨q, _, rfl⟩ := hp
  constructor
  · rw [rlookup_rset_ne _ _ _ _ (by decide), rlookup_rset_self]
  · rw [rlookup_rset_self]

/-- Witness for C6 on a state with one interface. -/
theorem c6_disabled_tracking_sets_sentinel_witness :
    ∃ st', get_interface_client false
        { emptyState with interface :=
          [(PyVal.str "ether1",
            [("name", PyVal.str "ether1"), ("default-name", PyVal.str "ether1")])] }
        [] [] = Except.ok (st', false, []) ∧
      ∀ p ∈ st'.interface,
        rlookup p.2 "client-ip-address" = Option.some (PyVal.str "disabled") ∧
        rlookup p.2 "client-mac-address" = Option.some (PyVal.str "disabled") :=
  c6_disabled_tracking_sets_sentinel _ [] []

/-- C10: a disabled-tracking call of `get_interface_client` leaves the
ARP table empty (the reset happens before the option is consulted, and
no fetch refills it), fetches nothing, and leaves every table other than
`arp` and `interface` exactly as it was. -/
theorem c10_disabled_cycle_resets_arp_frames_rest (st : State)
    (arp_data bridge_data : List Record) :
    ∃ st', get_interface_client false st arp_data bridge_data
        = Except.ok (st', false, [])
      ∧ st'.arp = []
      ∧ st'.routerboard = st.routerboard
      ∧ st'.resource = st.resource
      ∧ st'.nat = st.nat
      ∧ st'.fwupdate = st.fwupdate
      ∧ st'.script = st.script :=
  ⟨_, rfl, rfl, rfl, rfl, rfl, rfl, rfl⟩

/-- The ARP write block touches only the `arp` table. -/
theorem arpWrite_interface (st : State) (uid : PyVal) (e : Record) :
    (arpWrite st uid e).interface = st.interface := rfl

/-- After any ARP write, the written uid has a record carrying both a
`mac-address` and an `address` field. -/
theorem arpWrite_fields_present (st : State) (uid : PyVal) (e : Record) :
    ∃ r, tlookup (arpWrite st uid e).arp uid = Option.some r ∧
      (rlookup r "mac-address").isSome = true ∧
      (rlookup r "address").isSome = true := by
  simp only [arpWrite]
  refine ⟨_, tlookup_tset_self _ _ _, ?_, ?_⟩
  · rw [rlookup_rset_ne _ _ _ _ (by decide), rlookup_rset_self]
    rfl
  · rw [rlookup_rset_self]
    rfl

/-- An ARP write onto a uid whose record already has both fields
collapses them to the sentinel "multiple". -/
theorem arpWrite_existing_collapses (st : State) (uid : PyVal) (e : Record)
    (r : Record) (h : tlookup st.arp uid = Option.some r)
    (hm : (rlookup r "mac-address").isSome = true)
    (ha : (rlookup r "address").isSome = true) :
    ∃ r', tlookup (arpWrite st uid e).arp uid = Option.some r' ∧
      rlookup r' "mac-address" = Option.some (PyVal.str "multiple") ∧
      rlookup r' "address" = Option.some (PyVal.str "multiple") := by
  have e1 : rlookup (rset r "interface" uid) "mac-address" = rlookup r "mac-address" :=
    rlookup_rset_ne _ _ _ _ (by decide)
  have e2 : ∀ v, rlookup (rset (rset r "interface" uid) "mac-address" v) "address"
      = rlookup (rset r "interface" uid) "address" :=
    fun v => rlookup_rset_ne _ _ _ _ (by decide)
  have e3 : rlookup (rset r "interface" uid) "address" = rlookup r "address" :=
    rlookup_rset_ne _ _ _ _ (by decide)
  simp only [arpWrite, h, Option.isSome_some, if_true, Option.getD_some, e1, hm, e2, e3, ha]
  refine ⟨_, tlookup_tset_self _ _ _, ?_, rlookup_rset_self _ _ _⟩
  rw [rlookup_rset_ne _ _ _ _ (by decide), rlookup_rset_self]

/-- One `update_arp` loop iteration on a valid, non-bridge entry that
resolves to a truthy uid performs the ARP write. -/
theorem arpEntry_proceeds (st : State) (m : Mac2Ip) (b : Bool) (e : Record)
    (i n uid : PyVal)
    (hi : rlookup e "invalid" = Option.some i) (hti : truthy i = false)
    (hn : rlookup e "interface" = Option.some n) (hb : n ≠ PyVal.str "bridge")
    (hu : ifaceScan e st.interface = Except.ok uid) (htu : truthy uid = true) :
    arpEntry (st, m, b) e = Except.ok (arpWrite st uid e, m, b) := by
  simp [arpEntry, get_iface_from_entry, subscript, hi, hti, hn, hb, hu, htu,
    Bind.bind, Except.bind]

/-- C5: two non-invalid, non-bridge raw ARP records that both resolve to
the same interface uid leave that uid with `mac-address` and `address`
both collapsed to the sentinel "multiple" after the two iterations of
`update_arp`. -/
theorem c5_arp_conflict_collapses (st : State) (m : Mac2Ip) (b : Bool)
    (e1 e2 : Record) (i1 i2 n1 n2 uid mac1 mac2 : PyVal)
    (hi1 : rlookup e1 "invalid" = Option.some i1) (ht1 : truthy i1 = false)
    (hn1 : rlookup e1 "interface" = Option.some n1) (hb1 : n1 ≠ PyVal.str "bridge")
    (hu1 : ifaceScan e1 st.interface = Except.ok uid) (htu : truthy uid = true)
    (hi2 : rlookup e2 "invalid" = Option.some i2) (ht2 : truthy i2 = false)
    (hn2 : rlookup e2 "interface" = Option.some n2) (hb2 : n2 ≠ PyVal.str "bridge")
    (hu2 : ifaceScan e2 st.interface = Except.ok uid)
    (_hm1 : rlookup e1 "mac-address" = Option.some mac1)
    (_hm2 : rlookup e2 "mac-address" = Option.some mac2)
    (_hmm : mac1 ≠ mac2) :
    ∃ st' m' b', update_arp st m b [e1, e2] = Except.ok (st', m', b') ∧
      ∃ r, tlookup st'.arp uid = Option.some r ∧
        rlookup r "mac-address" = Option.some (PyVal.str "multiple") ∧
        rlookup r "address" = Option.some (PyVal.str "multiple") := by
  have s1 := arpEntry_proceeds st m b e1 i1 n1 uid hi1 ht1 hn1 hb1 hu1 htu
  have hu2' : ifaceScan e2 (arpWrite st uid e1).interface = Except.ok uid := by
    rw [arpWrite_interface]
    exact hu2
  have s2 := arpEntry_proceeds (arpWrite st uid e1) m b e2 i2 n2 uid
    hi2 ht2 hn2 hb2 hu2' htu
  have hfold : update_arp st m b [e1, e2]
      = Except.ok (arpWrite (arpWrite st uid e1) uid e2, m, b) := by
    simp [update_arp, List.foldlM, s1, s2, Bind.bind, Except.bind, pure, Except.pure]
  obtain ⟨rp, hp, hpm, hpa⟩ := arpWrite_fields_present st uid e1
  obtain ⟨r', hr', hrm, hra⟩ :=
    arpWrite_existing_collapses (arpWrite st uid e1) uid e2 rp hp hpm hpa
  exact ⟨_, _, _, hfold, r', hr', hrm, hra⟩

/-- Witness for C5: two records on the same resolved interface with
different MACs on a one-interface state. -/
theorem c5_arp_conflict_collapses_witness :
    ∃ st' m' b', update_arp
        { emptyState with interface :=
          [(PyVal.str "ether1",
            [("name", PyVal.str "LAN"), ("default-name", PyVal.str "ether1")])] }
        [] false
        [[("invalid", PyVal.bool false), ("interface", PyVal.str "LAN"),
          ("mac-address", PyVal.str "AA:AA:AA:AA:AA:AA"), ("address", PyVal.str "10.0.0.1")],
         [("invalid", PyVal.bool false), ("interface", PyVal.str "LAN"),
          ("mac-address", PyVal.str "BB:BB:BB:BB:BB:BB"), ("address", PyVal.str "10.0.0.2")]]
        = Except.ok (st', m', b') ∧
      ∃ r, tlookup st'.arp (PyVal.str "ether1") = Option.some r ∧
        rlookup r "mac-address" = Option.some (PyVal.str "multiple") ∧
        rlookup r "address" = Option.some (PyVal.str "multiple") :=
  c5_arp_conflict_collapses _ [] false _ _
    (PyVal.bool false) (PyVal.bool false) (PyVal.str "LAN") (PyVal.str "LAN")
    (PyVal.str "ether1") (PyVal.str "AA:AA:AA:AA:AA:AA") (PyVal.str "BB:BB:BB:BB:BB:BB")
    rfl rfl rfl (by decide) (by simp [ifaceScan, subscript, rlookup, Bind.bind, Except.bind])
    (by decide) rfl rfl rfl (by decide)
    (by simp [ifaceScan, subscript, rlookup, Bind.bind, Except.bind])
    rfl rfl (by decide)

/-- A bridge-host write onto a uid whose record already has a MAC
collapses both fields to the sentinel "multiple". -/
theorem bridgeWrite_existing_collapses (m : Mac2Ip) (st : State) (uid : PyVal)
    (e : Record) (r : Record) (h : tlookup st.arp uid = Option.some r)
    (hm : (rlookup r "mac-address").isSome = true) :
    ∃ r', tlookup (bridgeWrite m st uid e).arp uid = Option.some r' ∧
      rlookup r' "mac-address" = Option.some (PyVal.str "multiple") ∧
      rlookup r' "address" = Option.some (PyVal.str "multiple") := by
  have e1 : rlookup (rset r "interface" uid) "mac-address" = rlookup r "mac-address" :=
    rlookup_rset_ne _ _ _ _ (by decide)
  simp only [bridgeWrite, h, Option.isSome_some, if_true, Option.getD_some, e1, hm]
  refine ⟨_, tlookup_tset_self _ _ _, ?_, rlookup_rset_self _ _ _⟩
  rw [rlookup_rset_ne _ _ _ _ (by decide), rlookup_rset_self]

/-- A bridge-host write onto a uid with no MAC recorded assigns the MAC
of the entry and the IP found in the MAC to IP side table, empty string
when absent. -/
theorem bridgeWrite_fresh_assigns (m : Mac2Ip) (st : State) (uid : PyVal)
    (e : Record)
    (h : rlookup ((tlookup st.arp uid).getD []) "mac-address" = Option.none) :
    ∃ r', tlookup (bridgeWrite m st uid e).arp uid = Option.some r' ∧
      rlookup r' "mac-address"
        = Option.some (from_entry e "mac-address" (PyVal.str "")) ∧
      rlookup r' "address"
        = Option.some ((mlookup m (from_entry e "mac-address" (PyVal.str ""))).getD
            (PyVal.str "")) := by
  cases hs : tlookup st.arp uid with
  | none =>
    simp only [bridgeWrite, hs, Option.isSome_none, Bool.false_eq_true, if_false,
      tlookup_tset_self, Option.getD_some]
    have e0 : rlookup (rset ([] : Record) "interface" uid) "mac-address" = Option.none := by
      simp [rset, rlookup]
    simp only [e0, Option.isSome_none, Bool.false_eq_true, if_false]
    refine ⟨_, rfl, ?_, rlookup_rset_self _ _ _⟩
    rw [rlookup_rset_ne _ _ _ _ (by decide), rlookup_rset_self]
  | some r =>
    rw [hs] at h
    simp only [Option.getD_some] at h
    have e1 : rlookup (rset r "interface" uid) "mac-address" = rlookup r "mac-address" :=
      rlookup_rset_ne _ _ _ _ (by decide)
    simp only [bridgeWrite, hs, Option.isSome_some, if_true, Option.getD_some, e1, h,
      Option.isSome_none, Bool.false_eq_true, if_false]
    refine ⟨_, tlookup_tset_self _ _ _, ?_, rlookup_rset_self _ _ _⟩
    rw [rlookup_rset_ne _ _ _ _ (by decide), rlookup_rset_self]

/-- One `update_bridge_hosts` loop iteration on a non-local entry that
resolves to a truthy uid performs the bridge-host write. -/
theorem bridgeEntry_proceeds (m : Mac2Ip) (st : State) (e : Record)
    (l uid : PyVal)
    (hl : rlookup e "local" = Option.some l) (htl : truthy l = false)
    (hu : ifaceScan e st.interface = Except.ok uid) (htu : truthy uid = true) :
    bridgeEntry m st e = Except.ok (bridgeWrite m st uid e) := by
  simp [bridgeEntry, get_iface_from_entry, subscript, hl, htl, hu, htu,
    Bind.bind, Except.bind]

/-- A one-record batch runs the bridge-host loop body once. -/
theorem update_bridge_hosts_singleton (st : State) (m : Mac2Ip) (e : Record) :
    update_bridge_hosts st m [e] = bridgeEntry m st e := by
  cases hr : bridgeEntry m st e with
  | ok s =>
    simp [update_bridge_hosts, List.foldlM, hr, Bind.bind, Except.bind, pure, Except.pure]
  | error err =>
    simp [update_bridge_hosts, List.foldlM, hr, Bind.bind, Except.bind, pure, Except.pure]

/-- C7: processing of one bridge host record: a record flagged local is
discarded; a record resolving to no known interface is skipped; a
resolved uid that already has a MAC in the ARP table collapses both
fields to "multiple"; otherwise the MAC of the host is assigned and its
address looked up in the MAC to IP side table, empty string when the MAC
is not found there. -/
theorem c7_bridge_host_processing (st : State) (m : Mac2Ip) (e : Record) :
    (∀ l, rlookup e "local" = Option.some l → truthy l = true →
      update_bridge_hosts st m [e] = Except.ok st)
    ∧ (∀ l, rlookup e "local" = Option.some l → truthy l = false →
        ifaceScan e st.interface = Except.ok PyVal.none →
        update_bridge_hosts st m [e] = Except.ok st)
    ∧ (∀ l uid r, rlookup e "local" = Option.some l → truthy l = false →
        ifaceScan e st.interface = Except.ok uid → truthy uid = true →
        tlookup st.arp uid = Option.some r →
        (rlookup r "mac-address").isSome = true →
        ∃ st' r', update_bridge_hosts st m [e] = Except.ok st' ∧
          tlookup st'.arp uid = Option.some r' ∧
          rlookup r' "mac-address" = Option.some (PyVal.str "multiple") ∧
          rlookup r' "address" = Option.some (PyVal.str "multiple"))
    ∧ (∀ l uid mv, rlookup e "local" = Option.some l → truthy l = false →
        ifaceScan e st.interface = Except.ok uid → truthy uid = true →
        rlookup ((tlookup st.arp uid).getD []) "mac-address" = Option.none →
        rlookup e "mac-address" = Option.some mv →
        ∃ st' r', update_bridge_hosts st m [e] = Except.ok st' ∧
          tlookup st'.arp uid = Option.some r' ∧
          rlookup r' "mac-address" = Option.some mv ∧
          rlookup r' "address"
            = Option.some ((mlookup m mv).getD (PyVal.str ""))) := by
  refine ⟨?_, ?_, ?_, ?_⟩
  · intro l hl htl
    rw [update_bridge_hosts_singleton]
    simp [bridgeEntry, subscript, hl, htl, Bind.bind, Except.bind]
  · intro l hl htl hu
    rw [update_bridge_hosts_singleton]
    simp [bridgeEntry, get_iface_from_entry, subscript, hl, htl, hu, truthy,
      Bind.bind, Except.bind]
  · intro l uid r hl htl hu htu hr hm
    rw [update_bridge_hosts_singleton, bridgeEntry_proceeds m st e l uid hl htl hu htu]
    obtain ⟨r', hr', hrm, hra⟩ := bridgeWrite_existing_collapses m st uid e r hr hm
    exact ⟨_, r', rfl, hr', hrm, hra⟩
  · intro l uid mv hl htl hu htu habs hmv
    rw [update_bridge_hosts_singleton, bridgeEntry_proceeds m st e l uid hl htl hu htu]
    obtain ⟨r', hr', hrm, hra⟩ := bridgeWrite_fresh_assigns m st uid e habs
    refine ⟨_, r', rfl, hr', ?_, ?_⟩
    · rw [hrm]
      simp [from_entry, hmv]
    · rw [hra]
      simp [from_entry, hmv]

/-- Witness for C7: the local-discard case and the fresh-assignment case
(with a side-table hit) at concrete inputs. -/
theorem c7_bridge_host_processing_witness :
    update_bridge_hosts
      { emptyState with interface :=
        [(PyVal.str "ether2",
          [("name", PyVal.str "LAN2"), ("default-name", PyVal.str "ether2")])] }
      [(PyVal.str "CC:CC:CC:CC:CC:CC", PyVal.str "10.0.0.7")]
      [[("local", PyVal.bool true), ("interface", PyVal.str "LAN2"),
        ("mac-address", PyVal.str "CC:CC:CC:CC:CC:CC")]]
      = Except.ok
        { emptyState with interface :=
          [(PyVal.str "ether2",
            [("name", PyVal.str "LAN2"), ("default-name", PyVal.str "ether2")])] }
    ∧ ∃ st' r', update_bridge_hosts
        { emptyState with interface :=
          [(PyVal.str "ether2",
            [("name", PyVal.str "LAN2"), ("default-name", PyVal.str "ether2")])] }
        [(PyVal.str "CC:CC:CC:CC:CC:CC", PyVal.str "10.0.0.7")]
        [[("local", PyVal.bool false), ("interface", PyVal.str "LAN2"),
          ("mac-address", PyVal.str "CC:CC:CC:CC:CC:CC")]]
        = Except.ok st' ∧
        tlookup st'.arp (PyVal.str "ether2") = Option.some r' ∧
        rlookup r' "mac-address" = Option.some (PyVal.str "CC:CC:CC:CC:CC:CC") ∧
        rlookup r' "address"
          = Option.some ((mlookup [(PyVal.str "CC:CC:CC:CC:CC:CC", PyVal.str "10.0.0.7")]
              (PyVal.str "CC:CC:CC:CC:CC:CC")).getD (PyVal.str "")) := by
  constructor
  · exact (c7_bridge_host_processing _ _ _).1 (PyVal.bool true) rfl rfl
  · exact (c7_bridge_host_processing _ _ _).2.2.2 (PyVal.bool false)
      (PyVal.str "ether2") (PyVal.str "CC:CC:CC:CC:CC:CC") rfl rfl
      (by simp [ifaceScan, subscript, rlookup, Bind.bind, Except.bind]) (by decide)
      rfl rfl

end Mikrotik
